import Mathlib

/-!
Shallow embedding of `stable-eyre` (src/lib.rs): a custom `eyre::EyreHandler`
that captures a `backtrace::Backtrace` on stable Rust, renders diagnostic
reports, and installs itself as the global eyre hook.

External collaborators (the `eyre` crate's hook slot / `Report`, the
`backtrace` crate's stack snapshot, the `indenter` crate's indented writer,
Rust's `core::fmt::Formatter` and `std::env`) are modelled explicitly:
the environment is a function `String → Option String`, the formatter is a
record with an `alternate` flag and an output string plus an optional byte
budget after which writes fail (modelling a failing sink, since
`core::fmt::Error` carries no data), and the stack snapshot is an opaque
record carrying only its `{:?}` text rendering.
-/

namespace StableEyre

/-- Opaque snapshot of the call stack (`backtrace::Backtrace`).
`debugRender` is the text produced by its `{:?}` rendering. -/
structure Backtrace where
  debugRender : String
deriving DecidableEq

/-- Externally owned polymorphic error value (`dyn Error + 'static`):
its `Display` text, its default structural `Debug` text, and optionally a
cause (`Error::source`). `base` has no cause; `wrap` has one. -/
inductive ErrorVal where
  | base (display : String) (debugText : String)
  | wrap (display : String) (debugText : String) (cause : ErrorVal)
deriving DecidableEq

/-- The error's `Display` text (`write!(f, "{}", error)`). -/
def ErrorVal.display : ErrorVal → String
  | .base d _ => d
  | .wrap d _ _ => d

/-- The error's default structural `Debug` rendering (`Debug::fmt(error, f)`). -/
def ErrorVal.debugText : ErrorVal → String
  | .base _ t => t
  | .wrap _ t _ => t

/-- Embedding of `Error::source`: the optional cause of this error. -/
def ErrorVal.source : ErrorVal → Option ErrorVal
  | .base _ _ => none
  | .wrap _ _ c => some c

/-- Embedding of `iter::successors(Some(e), |e| e.source())`: the error followed by its
transitive causes, closest first. -/
def ErrorVal.selfChain : ErrorVal → List ErrorVal
  | .base d t => [.base d t]
  | .wrap d t c => .wrap d t c :: c.selfChain

/-- Rust's `core::fmt::Error` is a unit struct; the only render-time failure is a
failed write to the sink. -/
inductive FmtError where
  | sinkWriteFailed
deriving DecidableEq

/-- Model of `core::fmt::Formatter`: the `alternate` (`{:#?}`) flag, the text
written so far, and an optional budget. With `budget = none` the sink never
fails; with `budget = some b`, a write fails once it would push the total
length past `b` (modelling a sink that can fail, e.g. a closed sink). -/
structure Formatter where
  alternate : Bool
  out : String
  budget : Option Nat
deriving DecidableEq

/-- Embedding of `write!`: append to the sink, or fail if the sink rejects the write. -/
def Formatter.write (f : Formatter) (s : String) : Except FmtError Formatter :=
  match f.budget with
  | none => .ok { f with out := f.out ++ s }
  | some b =>
    if f.out.length + s.length ≤ b then .ok { f with out := f.out ++ s }
    else .error .sinkWriteFailed

/-- The `indenter` crate's `Format`: `indented(f)` uses
`Uniform { indentation: "    " }`; `indented(f).ind(n)` uses `Numbered { ind: n }`. -/
inductive IndFormat where
  | uniform (ind : String)
  | numbered (ind : Nat)

/-- Rust's `{: >4}` format of a number: its decimal digits right-aligned in a
field of width 4, padded with spaces. -/
def padTo4 (n : Nat) : String :=
  String.mk (List.replicate (4 - (Nat.repr n).length) ' ') ++ Nat.repr n

/-- Embedding of `Format::insert_indentation` from the `indenter` crate: `Uniform` writes its
indent string on every line; `Numbered` writes `"{: >4}: "` of the number on
the first line of a write and six spaces on subsequent lines. -/
def IndFormat.insertInd : IndFormat → Nat → String
  | .uniform s, _ => s
  | .numbered n, 0 => padTo4 n ++ ": "
  | .numbered _, _ => "      "

/-- Embedding of `str::split('\n')` as structural recursion over the character list:
`"" ↦ [""]`, `"a\nb" ↦ ["a","b"]`, `"a\n" ↦ ["a",""]`. -/
def splitOnNewline : List Char → List (List Char)
  | [] => [[]]
  | c :: rest =>
    if c = '\n' then [] :: splitOnNewline rest
    else
      match splitOnNewline rest with
      | l :: ls => (c :: l) :: ls
      | [] => [[c]]

/-- Embedding of `Indented::write_str` from the `indenter` crate, threaded through the
formatter: for each `'\n'`-separated segment (index `i`), write `'\n'` first
when `i > 0`; skip empty segments; otherwise write the indentation for line
`i` and then the segment. (`needs_indent` is `true` at every segment of a
single `write_str` call: it starts `true` and every later segment re-sets it.) -/
def indentedGo (fmt : IndFormat) : List (List Char) → Nat → Formatter → Except FmtError Formatter
  | [], _, f => .ok f
  | line :: rest, i, f => do
    let f ← if i > 0 then f.write "\n" else pure f
    let f ←
      if line = [] then pure f
      else do
        let f ← f.write (fmt.insertInd i)
        f.write (String.mk line)
    indentedGo fmt rest (i + 1) f

/-- Embedding of `write!(indented(f)…, "{}", e)`: the error's `Display` text written through
the indented writer (the text is delivered in one `write_str` call). -/
def indentedWrite (fmt : IndFormat) (s : String) (f : Formatter) : Except FmtError Formatter :=
  indentedGo fmt (splitOnNewline s.toList) 0 f

/-- The per-error handler (`struct Handler`): holds the optional captured
backtrace and nothing else. -/
structure Handler where
  backtrace : Option Backtrace
deriving DecidableEq

/-- The `for (n, error) in errors.enumerate()` loop of `Handler::debug`:
for each chain entry write a bare newline (`writeln!(f)`), then the entry's
display text through `indented(f).ind(n)` when `multiple`, else `indented(f)`. -/
def writeErrors (multiple : Bool) : List ErrorVal → Nat → Formatter → Except FmtError Formatter
  | [], _, f => .ok f
  | e :: rest, n, f => do
    let f ← f.write "\n"
    let f ← indentedWrite (if multiple then .numbered n else .uniform "    ") e.display f
    writeErrors multiple rest (n + 1) f

/-- Embedding of `<Handler as EyreHandler>::debug`: in alternate mode delegate to the
error's structural `Debug`; otherwise write the display text, then (if a cause
exists) the `"\n\nCaused by:"` header and the cause chain — numbered iff the
first cause itself has a further cause — then (if captured) the backtrace
section. -/
def Handler.debug (h : Handler) (error : ErrorVal) (f : Formatter) : Except FmtError Formatter :=
  if f.alternate then
    f.write error.debugText
  else do
    let f ← f.write error.display
    let f ←
      match error.source with
      | none => pure f
      | some cause => do
        let f ← f.write "\n\nCaused by:"
        writeErrors cause.source.isSome cause.selfChain 0 f
    match h.backtrace with
    | none => .ok f
    | some backtrace => f.write ("\n\nStack backtrace:\n" ++ backtrace.debugRender)

/-- Embedding of `struct HookBuilder`: the process-wide configuration. -/
structure HookBuilder where
  capture_backtrace_by_default : Bool
deriving DecidableEq

/-- Embedding of `HookBuilder::capture_enabled`: `env::var("RUST_LIB_BACKTRACE")
.or_else(|_| env::var("RUST_BACKTRACE")).map(|val| val != "0")
.unwrap_or(self.capture_backtrace_by_default)`. The process environment is a
function from variable name to optional value. -/
def HookBuilder.capture_enabled (b : HookBuilder) (env : String → Option String) : Bool :=
  match env "RUST_LIB_BACKTRACE" with
  | some v => v != "0"
  | none =>
    match env "RUST_BACKTRACE" with
    | some v => v != "0"
    | none => b.capture_backtrace_by_default

/-- Embedding of `HookBuilder::make_handler`: capture a backtrace iff `capture_enabled`.
The stack-capture capability is passed explicitly: `captured` is the snapshot
`Backtrace::new()` would produce at this moment; it is consulted only when
capture is enabled. The error argument is unused (`#[allow(unused_variables)]`). -/
def HookBuilder.make_handler (b : HookBuilder) (env : String → Option String)
    (captured : Backtrace) (error : ErrorVal) : Handler :=
  { backtrace := if b.capture_enabled env then some captured else none }

/-- Embedding of `HookBuilder::capture_backtrace_by_default`: builder transform. -/
def HookBuilder.set_capture_backtrace_by_default (b : HookBuilder) (cond : Bool) : HookBuilder :=
  { b with capture_backtrace_by_default := cond }

/-- Embedding of `impl Default for HookBuilder`: capture disabled by default. -/
def HookBuilder.default : HookBuilder :=
  { capture_backtrace_by_default := false }

/-- The type of the hook closure passed to `eyre::set_hook`: given the ambient
environment and the stack snapshot the capture primitive would take, produce a
handler for an error. -/
def HookFn : Type :=
  (String → Option String) → Backtrace → ErrorVal → Handler

/-- The `eyre` crate's install error: only one kind matters here. -/
inductive InstallError where
  | AlreadyInstalled
deriving DecidableEq

/-- Modelled from the spec: `eyre::set_hook`, the write-once global hook
registration slot, is code of the `eyre` crate, not of this repository. Per
the spec it "registers a closure wrapping this configuration as the
process-wide active factory", failing with `AlreadyInstalled` if any factory
was already registered, leaving the first registration active; the slot is
passed and returned explicitly. -/
def set_hook (slot : Option HookFn) (hook : HookFn) : Except InstallError Unit × Option HookFn :=
  match slot with
  | none => (.ok (), some hook)
  | some g => (.error .AlreadyInstalled, some g)

/-- Embedding of `HookBuilder::install`: `eyre::set_hook(Box::new(move |e| Box::new(self.make_handler(e))))?`. -/
def HookBuilder.install (b : HookBuilder) (slot : Option HookFn) :
    Except InstallError Unit × Option HookFn :=
  set_hook slot (fun env captured e => b.make_handler env captured e)

/-- Module-level `stable_eyre::install()`: `HookBuilder::default().install()`. -/
def install (slot : Option HookFn) : Except InstallError Unit × Option HookFn :=
  HookBuilder.default.install slot

/-- The opaque diagnostic slot of an `eyre::Report`: either this library's
`Handler` or some other `EyreHandler` implementation (for which the downcast
to `crate::Handler` fails). -/
inductive DynHandler where
  | stableEyre (h : Handler)
  | otherHandler
deriving DecidableEq

/-- Modelled from the spec: `eyre::Report::handler()` returns the report's
opaque diagnostic handler, and `downcast_ref::<crate::Handler>()` succeeds
exactly when that handler is this library's `Handler`. -/
def DynHandler.downcast_ref : DynHandler → Option Handler
  | .stableEyre h => some h
  | .otherHandler => none

/-- An `eyre::Report` as far as the accessor is concerned: its handler slot. -/
structure Report where
  handler : DynHandler

/-- Embedding of `impl BacktraceExt for eyre::Report`:
`self.handler().downcast_ref::<crate::Handler>().and_then(|h| h.backtrace.as_ref())`. -/
def Report.backtrace (r : Report) : Option Backtrace :=
  r.handler.downcast_ref.bind fun handler => handler.backtrace

/-! ### Pure descriptions of the rendered text (for the never-failing sink) -/

/-- The text `indentedGo` appends when every write succeeds. -/
def indentedText (fmt : IndFormat) : List (List Char) → Nat → String
  | [], _ => ""
  | line :: rest, i =>
    (if i > 0 then "\n" else "") ++
    (if line = [] then "" else fmt.insertInd i ++ String.mk line) ++
    indentedText fmt rest (i + 1)

/-- The text `writeErrors` appends when every write succeeds. -/
def chainText (multiple : Bool) : List ErrorVal → Nat → String
  | [], _ => ""
  | e :: rest, n =>
    "\n" ++ indentedText (if multiple then .numbered n else .uniform "    ")
              (splitOnNewline e.display.toList) 0 ++
    chainText multiple rest (n + 1)

/-- The stack section appended iff a backtrace was captured. -/
def stackText (h : Handler) : String :=
  match h.backtrace with
  | none => ""
  | some backtrace => "\n\nStack backtrace:\n" ++ backtrace.debugRender

/-- The full prose report `Handler::debug` appends in non-alternate mode when
every write succeeds. -/
def renderReport (h : Handler) (e : ErrorVal) : String :=
  e.display ++
  (match e.source with
   | none => ""
   | some cause => "\n\nCaused by:" ++ chainText cause.source.isSome cause.selfChain 0) ++
  stackText h

/-- Concrete error value for the spec's worked example: the innermost error. -/
def innerErr : ErrorVal :=
  .base "inner" "inner-debug"

/-- Concrete error value for the spec's worked example: `"middle"` caused by `"inner"`. -/
def middleErr : ErrorVal :=
  .wrap "middle" "middle-debug" innerErr

/-- Concrete error value for the spec's worked example: `"outer"` caused by
`"middle"` caused by `"inner"`. -/
def outerErr : ErrorVal :=
  .wrap "outer" "outer-debug" middleErr

/-! ### Supporting lemmas -/

/-- On a never-failing sink, `write!` appends and succeeds. -/
theorem write_none_eq (a : Bool) (o s : String) :
    Formatter.write ⟨a, o, none⟩ s = .ok ⟨a, o ++ s, none⟩ := rfl

/-- On a never-failing sink, the indented writer appends `indentedText`. -/
theorem indentedGo_none (fmt : IndFormat) (ls : List (List Char)) :
    ∀ (i : Nat) (a : Bool) (o : String),
      indentedGo fmt ls i ⟨a, o, none⟩ = .ok ⟨a, o ++ indentedText fmt ls i, none⟩ := by
  induction ls with
  | nil =>
    intro i a o
    simp [indentedGo, indentedText, String.append_empty]
  | cons line rest ih =>
    intro i a o
    rcases Nat.eq_zero_or_pos i with hi | hi
    · subst hi
      by_cases hl : line = [] <;>
        simp [indentedGo, indentedText, hl, write_none_eq, ih, String.append_assoc,
          String.append_empty, String.empty_append, Except.bind, Bind.bind, Pure.pure,
          Except.pure]
    · by_cases hl : line = [] <;>
        simp [indentedGo, indentedText, hi, hl, write_none_eq, ih, String.append_assoc,
          String.append_empty, String.empty_append, Except.bind, Bind.bind, Pure.pure,
          Except.pure]

/-- On a never-failing sink, the chain loop appends `chainText`. -/
theorem writeErrors_none (multiple : Bool) (es : List ErrorVal) :
    ∀ (n : Nat) (a : Bool) (o : String),
      writeErrors multiple es n ⟨a, o, none⟩ = .ok ⟨a, o ++ chainText multiple es n, none⟩ := by
  induction es with
  | nil =>
    intro n a o
    simp [writeErrors, chainText, String.append_empty]
  | cons e rest ih =>
    intro n a o
    simp [writeErrors, chainText, indentedWrite, write_none_eq, indentedGo_none, ih,
      String.append_assoc, Except.bind, Bind.bind]

/-- On a never-failing, non-alternate sink, `Handler::debug` succeeds and
appends exactly `renderReport`. -/
theorem debug_none (h : Handler) (e : ErrorVal) (o : String) :
    Handler.debug h e ⟨false, o, none⟩ = .ok ⟨false, o ++ renderReport h e, none⟩ := by
  obtain ⟨bt⟩ := h
  cases e <;> cases bt <;>
    simp [Handler.debug, renderReport, ErrorVal.display, ErrorVal.source, stackText,
      write_none_eq, writeErrors_none, String.append_assoc, String.append_empty,
      Except.bind, Bind.bind, Pure.pure, Except.pure]

/-- The chain `selfChain` is never empty: it starts with the error itself. -/
theorem selfChain_length_pos (e : ErrorVal) : 0 < e.selfChain.length := by
  cases e <;> simp [ErrorVal.selfChain]

/-! ### Claim theorems -/

/-- C1: the capture decision reads `RUST_LIB_BACKTRACE` first and
`RUST_BACKTRACE` second; whichever override is consulted decides by
"enabled iff the value is not `"0"`" regardless of the other override and
the compiled default, and when neither is set the decision is exactly
`capture_backtrace_by_default`. -/
theorem capture_decision_precedence (b : HookBuilder) (env : String → Option String) :
    (∀ v, env "RUST_LIB_BACKTRACE" = some v →
      b.capture_enabled env = (v != "0")) ∧
    (env "RUST_LIB_BACKTRACE" = none → ∀ v, env "RUST_BACKTRACE" = some v →
      b.capture_enabled env = (v != "0")) ∧
    (env "RUST_LIB_BACKTRACE" = none → env "RUST_BACKTRACE" = none →
      b.capture_enabled env = b.capture_backtrace_by_default) := by
  refine ⟨fun v hv => ?_, fun h1 v hv => ?_, fun h1 h2 => ?_⟩ <;>
    simp [HookBuilder.capture_enabled, *]

/-- Witness for C1 at a concrete input: with the library-specific override set
to `"0"` and the general override set to `"1"`, capture is decided by the
library-specific value alone. -/
theorem capture_decision_precedence_witness :
    (fun s => if s = "RUST_LIB_BACKTRACE" then some "0" else some "1") "RUST_LIB_BACKTRACE"
      = some "0" ∧
    HookBuilder.capture_enabled ⟨true⟩
      (fun s => if s = "RUST_LIB_BACKTRACE" then some "0" else some "1") = ("0" != "0") :=
  ⟨by decide,
   (capture_decision_precedence ⟨true⟩
      (fun s => if s = "RUST_LIB_BACKTRACE" then some "0" else some "1")).1 "0" (by decide)⟩

/-- C2: for an error with a non-empty cause chain, the numbering style is
uniform across the whole chain: a single cause is rendered as one indented,
unnumbered entry (`chainText false`, i.e. the `Uniform "    "` indenter);
two or more causes render every entry with its 0-based position number in
chain order (`chainText true`, i.e. the `Numbered n` indenter, whose first
line is prefixed `"{: >4}: "` of `n`). Internally the style is decided in
advance by whether the first cause itself has a further cause; the theorem
states it by total chain length, which the proof shows is the same test. -/
theorem chain_numbering_style (h : Handler) (e cause : ErrorVal)
    (hs : e.source = some cause) :
    ∃ f', Handler.debug h e ⟨false, "", none⟩ = .ok f' ∧
      (cause.selfChain.length = 1 →
        f'.out = e.display ++ "\n\nCaused by:" ++
          chainText false cause.selfChain 0 ++ stackText h) ∧
      (2 ≤ cause.selfChain.length →
        f'.out = e.display ++ "\n\nCaused by:" ++
          chainText true cause.selfChain 0 ++ stackText h) := by
  cases e with
  | base d t => simp [ErrorVal.source] at hs
  | wrap d t c =>
    obtain rfl : c = cause := by simpa [ErrorVal.source] using hs
    refine ⟨⟨false, "" ++ renderReport h (ErrorVal.wrap d t c), none⟩,
      debug_none h _ "", ?_, ?_⟩
    · intro hlen
      cases c with
      | base d2 t2 =>
        simp [renderReport, ErrorVal.source, ErrorVal.display, ErrorVal.selfChain,
          String.empty_append, String.append_assoc]
      | wrap d2 t2 c2 =>
        exfalso
        have hp := selfChain_length_pos c2
        simp only [ErrorVal.selfChain, List.length_cons] at hlen
        omega
    · intro hlen
      cases c with
      | base d2 t2 =>
        exfalso
        simp [ErrorVal.selfChain] at hlen
      | wrap d2 t2 c2 =>
        simp [renderReport, ErrorVal.source, ErrorVal.display, ErrorVal.selfChain,
          String.empty_append, String.append_assoc]

/-- Witness for C2 at the concrete two-cause example: `outer` caused by
`middle` caused by `inner`. -/
theorem chain_numbering_style_witness :
    outerErr.source = some middleErr ∧
    (∃ f', Handler.debug ⟨none⟩ outerErr ⟨false, "", none⟩ = .ok f' ∧
      (middleErr.selfChain.length = 1 →
        f'.out = outerErr.display ++ "\n\nCaused by:" ++
          chainText false middleErr.selfChain 0 ++ stackText ⟨none⟩) ∧
      (2 ≤ middleErr.selfChain.length →
        f'.out = outerErr.display ++ "\n\nCaused by:" ++
          chainText true middleErr.selfChain 0 ++ stackText ⟨none⟩)) :=
  ⟨rfl, chain_numbering_style ⟨none⟩ outerErr middleErr rfl⟩

/-- C3: with neither environment override set, the produced handler holds a
captured stack iff `capture_backtrace_by_default` was configured `true`; the
default configuration has it `false`; and when capture is disabled the stack
field is absent and the handler does not depend on the capture capability at
all (no stack capture is invoked). -/
theorem default_capture_policy (b : HookBuilder) (env : String → Option String)
    (h1 : env "RUST_LIB_BACKTRACE" = none) (h2 : env "RUST_BACKTRACE" = none)
    (captured : Backtrace) (e : ErrorVal) :
    (b.make_handler env captured e).backtrace.isSome = b.capture_backtrace_by_default ∧
    HookBuilder.default.capture_backtrace_by_default = false ∧
    (b.capture_backtrace_by_default = false →
      (b.make_handler env captured e).backtrace = none ∧
      ∀ captured', b.make_handler env captured e = b.make_handler env captured' e) := by
  have hc : b.capture_enabled env = b.capture_backtrace_by_default := by
    simp [HookBuilder.capture_enabled, h1, h2]
  refine ⟨?_, rfl, fun hd => ⟨?_, fun captured' => ?_⟩⟩ <;>
    simp [HookBuilder.make_handler, hc, *] <;>
      cases hb : b.capture_backtrace_by_default <;> simp [hb]

/-- Witness for C3 at a concrete input: the empty environment and the default
configuration yield a handler with no captured stack. -/
theorem default_capture_policy_witness :
    (fun _ : String => (none : Option String)) "RUST_LIB_BACKTRACE" = none ∧
    (fun _ : String => (none : Option String)) "RUST_BACKTRACE" = none ∧
    ((HookBuilder.mk false).make_handler (fun _ => none) ⟨"bt"⟩ innerErr).backtrace.isSome
        = (HookBuilder.mk false).capture_backtrace_by_default ∧
      HookBuilder.default.capture_backtrace_by_default = false ∧
      ((HookBuilder.mk false).capture_backtrace_by_default = false →
        ((HookBuilder.mk false).make_handler (fun _ => none) ⟨"bt"⟩ innerErr).backtrace = none ∧
        ∀ captured', (HookBuilder.mk false).make_handler (fun _ => none) ⟨"bt"⟩ innerErr
            = (HookBuilder.mk false).make_handler (fun _ => none) captured' innerErr) :=
  ⟨rfl, rfl, default_capture_policy ⟨false⟩ (fun _ => none) rfl rfl ⟨"bt"⟩ innerErr⟩

/-- C4: for an error with no cause, the non-alternate rendering is exactly the
display text followed — iff a stack was captured — by the stack section; in
particular no `"Caused by:"` header is emitted (the output equals the display
text plus at most the stack section, nothing else). -/
theorem no_cause_render (h : Handler) (e : ErrorVal) (hs : e.source = none) (o : String) :
    ∃ f', Handler.debug h e ⟨false, o, none⟩ = .ok f' ∧
      f'.out = o ++ e.display ++ stackText h ∧
      (h.backtrace = none → f'.out = o ++ e.display) ∧
      (∀ bt, h.backtrace = some bt →
        f'.out = o ++ e.display ++ "\n\nStack backtrace:\n" ++ bt.debugRender) := by
  refine ⟨⟨false, o ++ renderReport h e, none⟩, debug_none h e o, ?_, ?_, ?_⟩
  · cases e <;> simp [ErrorVal.source] at hs ⊢ <;>
      simp [renderReport, ErrorVal.source, ErrorVal.display, String.append_assoc,
        String.append_empty]
  · intro hb
    cases e <;> simp [ErrorVal.source] at hs ⊢ <;>
      simp [renderReport, ErrorVal.source, ErrorVal.display, stackText, hb,
        String.append_assoc, String.append_empty]
  · intro bt hb
    cases e <;> simp [ErrorVal.source] at hs ⊢ <;>
      simp [renderReport, ErrorVal.source, ErrorVal.display, stackText, hb,
        String.append_assoc, String.append_empty]

/-- Witness for C4 at a concrete input: a cause-less error with a captured
stack renders as display text plus the stack section. -/
theorem no_cause_render_witness :
    (ErrorVal.base "solo" "solo-debug").source = none ∧
    (∃ f', Handler.debug ⟨some ⟨"BT"⟩⟩ (.base "solo" "solo-debug") ⟨false, "", none⟩ = .ok f' ∧
      f'.out = "" ++ (ErrorVal.base "solo" "solo-debug").display ++ stackText ⟨some ⟨"BT"⟩⟩ ∧
      ((Handler.mk (some ⟨"BT"⟩)).backtrace = none →
        f'.out = "" ++ (ErrorVal.base "solo" "solo-debug").display) ∧
      (∀ bt, (Handler.mk (some ⟨"BT"⟩)).backtrace = some bt →
        f'.out = "" ++ (ErrorVal.base "solo" "solo-debug").display ++
          "\n\nStack backtrace:\n" ++ bt.debugRender)) :=
  ⟨rfl, no_cause_render ⟨some ⟨"BT"⟩⟩ (.base "solo" "solo-debug") rfl ""⟩

/-- C5 as stated is false on the code: rendering `outer` ← `middle` ← `inner`
with capture disabled does not produce the literal text
`"outer\n\nCaused by:\n0: middle\n1: inner"` — the numbered entries carry the
indenter's `"{: >4}: "` prefix, i.e. three spaces before each number. -/
theorem render_example_exact_counterexample :
    (Handler.debug ⟨none⟩ outerErr ⟨false, "", none⟩).toOption.map Formatter.out ≠
      some "outer\n\nCaused by:\n0: middle\n1: inner" := by
  decide

/-- C5 amended: rendering `outer` ← `middle` ← `inner` with capture disabled
produces exactly `"outer\n\nCaused by:\n   0: middle\n   1: inner"` (each
numbered entry right-aligned in a four-column field), with no stack section
appended. -/
theorem render_example_exact :
    Handler.debug ⟨none⟩ outerErr ⟨false, "", none⟩ =
      .ok ⟨false, "outer\n\nCaused by:\n   0: middle\n   1: inner", none⟩ := rfl

/-- C6: a first `install()` on the empty hook slot succeeds and registers the
configuration's factory; a second `install()` by any configuration on an
occupied slot returns `AlreadyInstalled` and leaves the first factory active;
and the module-level zero-argument `install()` is exactly
`HookBuilder::default().install()`. -/
theorem install_protocol (b b2 : HookBuilder) :
    b.install none = (.ok (), some (fun env captured e => b.make_handler env captured e)) ∧
    (∀ hook : HookFn, b2.install (some hook) = (.error .AlreadyInstalled, some hook)) ∧
    (∀ slot, install slot = HookBuilder.default.install slot) :=
  ⟨rfl, fun _ => rfl, fun _ => rfl⟩

/-- C7: the backtrace accessor is total: when the report's diagnostic handler
downcasts to this library's `Handler` it returns that handler's (possibly
absent) captured stack, and when the downcast fails (a different or no
compatible handler) it returns `none` — it never fails. -/
theorem backtrace_accessor_total (r : Report) :
    (∀ h, r.handler = .stableEyre h → r.backtrace = h.backtrace) ∧
    (r.handler = .otherHandler → r.backtrace = none) := by
  obtain ⟨dh⟩ := r
  cases dh with
  | stableEyre h0 =>
    refine ⟨fun h hh => ?_, fun hh => by simp at hh⟩
    obtain rfl : h0 = h := by simpa using hh
    simp [Report.backtrace, DynHandler.downcast_ref]
  | otherHandler =>
    refine ⟨fun h hh => by simp at hh, fun _ => ?_⟩
    simp [Report.backtrace, DynHandler.downcast_ref]

/-- Witness for C7 at a concrete input: a report carrying this library's
handler with a captured stack yields that stack. -/
theorem backtrace_accessor_total_witness :
    (Report.mk (.stableEyre ⟨some ⟨"BT2"⟩⟩)).handler = .stableEyre ⟨some ⟨"BT2"⟩⟩ ∧
    (Report.mk (.stableEyre ⟨some ⟨"BT2"⟩⟩)).backtrace = (Handler.mk (some ⟨"BT2"⟩)).backtrace :=
  ⟨rfl, (backtrace_accessor_total ⟨.stableEyre ⟨some ⟨"BT2"⟩⟩⟩).1 ⟨some ⟨"BT2"⟩⟩ rfl⟩

/-- C8: the only failure rendering can propagate is a sink write failure
(`core::fmt::Error` is a unit value, so it is propagated unchanged); on a sink
whose writes never fail, rendering always succeeds, preserves the sink's mode
and budget, and only appends to the previously written output. Rendering is a
pure function of the handler, the error and the sink — it mutates nothing. -/
theorem render_failure_behavior (h : Handler) (e : ErrorVal) (f : Formatter) :
    (∀ err, Handler.debug h e f = .error err → err = .sinkWriteFailed) ∧
    (f.budget = none → ∃ f', Handler.debug h e f = .ok f' ∧
      f'.alternate = f.alternate ∧ f'.budget = none ∧
      ∃ t, f'.out = f.out ++ t) := by
  obtain ⟨a, o, bud⟩ := f
  refine ⟨fun err _ => by cases err; rfl, fun hb => ?_⟩
  obtain rfl : bud = none := hb
  cases a with
  | true => exact ⟨⟨true, o ++ e.debugText, none⟩, rfl, rfl, rfl, e.debugText, rfl⟩
  | false => exact ⟨⟨false, o ++ renderReport h e, none⟩, debug_none h e o, rfl, rfl,
      renderReport h e, rfl⟩

/-- Witness for C8 at a concrete input: on a never-failing sink the rendering
of a concrete error succeeds and appends. -/
theorem render_failure_behavior_witness :
    (Formatter.mk false "" none).budget = none ∧
    (∃ f', Handler.debug ⟨none⟩ innerErr ⟨false, "", none⟩ = .ok f' ∧
      f'.alternate = (Formatter.mk false "" none).alternate ∧ f'.budget = none ∧
      ∃ t, f'.out = (Formatter.mk false "" none).out ++ t) :=
  ⟨rfl, (render_failure_behavior ⟨none⟩ innerErr ⟨false, "", none⟩).2 rfl⟩

/-- C9: when the sink requests alternate mode, `Handler::debug` bypasses the
whole prose report and delegates to the error's default structural `Debug`
rendering (a single write of `debugText`), for every capture state, error,
prior output and sink budget. -/
theorem alternate_mode_delegates (h : Handler) (e : ErrorVal) (o : String) (bud : Option Nat) :
    Handler.debug h e ⟨true, o, bud⟩ = Formatter.write ⟨true, o, bud⟩ e.debugText := rfl

/-- C10: `make_handler` ignores its error argument entirely: for a fixed
configuration, environment and capture capability, any two error values yield
identical handlers. -/
theorem make_handler_ignores_error (b : HookBuilder) (env : String → Option String)
    (captured : Backtrace) (e1 e2 : ErrorVal) :
    b.make_handler env captured e1 = b.make_handler env captured e2 := rfl

end StableEyre
